import Mathlib

/-!
Shallow embedding of the Mimesis synthetic-data generation workflow
(`src/app/agents/*.py`, `src/app/models/schemas.py`).

Records are Python dicts: insertion-ordered field/value maps, modelled as
association lists.  Values are strings, integers, or mappings (mappings are
modelled one level deep — string-to-string — which is all the evaluation
policy ever inspects: it only asks whether a mapping-valued field is empty).
-/

namespace Mimesis

/-- A field value of a record: string, number, or nested mapping. -/
inductive Value where
  | vstr : String → Value
  | vint : Int → Value
  | vdict : List (String × String) → Value
deriving DecidableEq, Repr

/-- A record: an insertion-ordered mapping from field names to values. -/
abbrev Record := List (String × Value)

/-- The LangGraph state object `GenerationState` from `models/schemas.py`. -/
structure GenerationState where
  domain : String
  data_format : String
  num_records : Nat
  context : Option String := none
  domain_research : Option String := none
  generated_data : List Record := []
  current_batch : Nat := 0
  total_batches : Nat := 0
  file_path : Option String := none
  status : String := "pending"
  error_message : Option String := none
deriving DecidableEq, Repr

/-- Lexicographic comparison of character sequences, modelling Python's
string ordering by code point. -/
def lexLe : List Char → List Char → Bool
  | [], _ => true
  | _ :: _, [] => false
  | a :: as, b :: bs => if a < b then true else if b < a then false else lexLe as bs

/-- Python's `str.strip()`: drop leading and trailing whitespace. -/
def pyStrip (s : String) : String :=
  ⟨((s.data.dropWhile Char.isWhitespace).reverse.dropWhile Char.isWhitespace).reverse⟩

/-- Python's `str.lower()`. -/
def pyLower (s : String) : String := ⟨s.data.map Char.toLower⟩

/-- Key-ordering on field/value pairs, used by record canonicalization
(Python's `sorted(record.items())` compares the `(key, value)` tuples
lexicographically; dict keys are unique, so ordering is decided by the key
component). -/
def keyLe (a b : String × Value) : Prop := lexLe a.1.data b.1.data = true

instance : DecidableRel keyLe :=
  fun a b => inferInstanceAs (Decidable (lexLe a.1.data b.1.data = true))

/-- Canonical form of a record: its field/value pairs sorted by field name
(`str(sorted(record.items()))` in `EvaluatorAgent.remove_exact_duplicates`;
the stable sort models Python's `sorted`, which on a dict's items is decided
by the unique keys). -/
def canon (r : Record) : Record := r.insertionSort keyLe

/-- The scanning loop of `remove_exact_duplicates`: `seen` is the set of
canonical forms already encountered. -/
def removeDupsGo (seen : List Record) : List Record → List Record
  | [] => []
  | r :: rs =>
    if canon r ∈ seen then removeDupsGo seen rs
    else r :: removeDupsGo (canon r :: seen) rs

/-- `EvaluatorAgent.remove_exact_duplicates`. -/
def remove_exact_duplicates (data : List Record) : List Record :=
  removeDupsGo [] data

/-- The fixed placeholder-token list of `EvaluatorAgent.basic_quality_check`. -/
def placeholderTokens : List String := ["placeholder", "example", "sample", "test", "..."]

/-- Whether a single field value trips `basic_quality_check`'s rejection rules:
a string whose trimmed length is < 3 or which lower-cases to a placeholder
token, or an empty mapping.  Numbers never trip the check. -/
def valueViolates : Value → Bool
  | .vstr v => decide ((pyStrip v).length < 3) || placeholderTokens.contains (pyLower v)
  | .vint _ => false
  | .vdict d => d.isEmpty

/-- The per-record loop of `basic_quality_check` (the `break` on the first
bad field makes the loop equivalent to requiring every field to pass). -/
def recordIsValid (r : Record) : Bool := r.all fun kv => !valueViolates kv.2

/-- `EvaluatorAgent.basic_quality_check` (the `data_format` argument is
accepted but unused by the source). -/
def basic_quality_check (data : List Record) (_data_format : String) : List Record :=
  data.filter recordIsValid

/-- The `EvaluationResult` model of `models/schemas.py`. -/
structure EvaluationResult where
  valid_records : List Record
  duplicate_count : Int
  quality_issues : List String
  passed_validation : Bool
deriving DecidableEq, Repr

/-- The dictionary returned by the evaluation collaborator
(`LLMService.evaluate_data_quality`); each key may be absent, mirroring the
`.get(key, default)` reads in `EvaluatorAgent.evaluate_with_llm`. -/
structure LLMEvalDict where
  valid_records : Option (List Record) := none
  duplicate_count : Option Int := none
  quality_issues : Option (List String) := none
  passed_validation : Option Bool := none
deriving DecidableEq, Repr

/-- `EvaluatorAgent.evaluate_with_llm`.  The collaborator call is an oracle
argument: `Except.ok` is a returned dictionary, `Except.error` an exception
raised by the call (the exception text is only logged by the source). -/
def evaluate_with_llm (llmOutcome : Except String LLMEvalDict)
    (data : List Record) (data_format : String) : EvaluationResult :=
  match llmOutcome with
  | .ok d =>
      { valid_records := d.valid_records.getD data
        duplicate_count := d.duplicate_count.getD 0
        quality_issues := d.quality_issues.getD []
        passed_validation := d.passed_validation.getD true }
  | .error _ =>
      let unique_data := remove_exact_duplicates data
      let valid_data := basic_quality_check unique_data data_format
      { valid_records := valid_data
        duplicate_count := (data.length : Int) - unique_data.length
        quality_issues := ["Basic validation only - LLM evaluation failed"]
        passed_validation := decide (0 < valid_data.length) }

/-- `EvaluatorAgent.evaluate_and_save`.  `persistOutcome` is the
`FileService.save_to_csv` collaborator: `Except.ok` carries the file path,
`Except.error` an exception (which `save_to_csv` re-raises, landing in the
stage's `except` branch).  `validate_data_format` only logs and never
raises, so it does not appear. -/
def evaluate_and_save (llmOutcome : Except String LLMEvalDict)
    (persistOutcome : Except String String) (state : GenerationState) : GenerationState :=
  let unique_data := remove_exact_duplicates state.generated_data
  let basic_valid_data := basic_quality_check unique_data state.data_format
  let evaluation_result := evaluate_with_llm llmOutcome basic_valid_data state.data_format
  let final_data := evaluation_result.valid_records
  if final_data.isEmpty then
    { state with status := "evaluation_failed"
                 error_message := some "No valid records after evaluation" }
  else
    match persistOutcome with
    | .error e =>
        { state with status := "evaluation_failed"
                     error_message := some ("Evaluation failed: " ++ e) }
    | .ok fp =>
        { state with generated_data := final_data
                     file_path := some fp
                     status := "completed" }

/-- `ResearchAgent.research_domain`.  The whole body is one `try`: on
success the serialized research summary is stored and
`status=research_completed`; any exception is converted to
`status=research_failed` with an error message. -/
def researchAgent (outcome : Except String String) (state : GenerationState) : GenerationState :=
  match outcome with
  | .ok research_json =>
      { state with domain_research := some research_json
                   status := "research_completed" }
  | .error e =>
      { state with status := "research_failed"
                   error_message := some ("Research failed: " ++ e) }

/-- `GeneratorAgent.calculate_batches`: `math.ceil(total_records / batch_size)`,
written as the equivalent natural-number ceiling division so that it
evaluates; `calculate_batches_eq_ceil` proves it agrees with the exact
rational ceiling for every positive batch size. -/
def calculate_batches (total_records : Nat) (batch_size : Nat) : Nat :=
  (total_records + batch_size - 1) / batch_size

/-- The records still owed: `num_records - len(generated_data)` (a Python
int, so possibly negative). -/
def recordsRemaining (state : GenerationState) : Int :=
  (state.num_records : Int) - state.generated_data.length

/-- The batch size requested from the generation service on one call:
`min(self.batch_size, records_remaining)`. -/
def requestedBatchSize (batchSize : Nat) (state : GenerationState) : Nat :=
  min batchSize (recordsRemaining state).toNat

/-- `GeneratorAgent.generate_data_batch`.  `svc` is the generation-service
oracle, mapping the requested batch size to either a record list or an
exception; the `domain_research` JSON parse cannot fail the stage and only
feeds the oracle, so it is absorbed into `svc`. -/
def generate_data_batch (batchSize : Nat) (svc : Nat → Except String (List Record))
    (state : GenerationState) : GenerationState :=
  if recordsRemaining state ≤ 0 then
    { state with status := "generation_completed" }
  else
    match svc (requestedBatchSize batchSize state) with
    | .error e =>
        { state with status := "generation_failed"
                     error_message := some ("Generation failed: " ++ e) }
    | .ok batch_data =>
        if batch_data.isEmpty then
          { state with status := "generation_failed"
                       error_message := some "Failed to generate data batch" }
        else
          let gd := state.generated_data ++ batch_data
          { state with generated_data := gd
                       current_batch := state.current_batch + 1
                       status := if state.num_records ≤ gd.length
                                 then "generation_completed" else "generating" }

/-- `GeneratorAgent.__call__`: initializes `total_batches` (and resets
`current_batch`) on the first call — `total_batches == 0` — then delegates
to `generate_data_batch`. -/
def generatorAgent (batchSize : Nat) (svc : Nat → Except String (List Record))
    (state : GenerationState) : GenerationState :=
  let state' :=
    if state.total_batches = 0 then
      { state with total_batches := calculate_batches state.num_records batchSize
                   current_batch := 0 }
    else state
  generate_data_batch batchSize svc state'

/-- `SyntheticDataWorkflow.evaluate_node`: full evaluation only once the
quota is met or generation is marked complete; otherwise a pass-through
that sets `status="generating"`. -/
def evaluateNode (llmOutcome : Except String LLMEvalDict)
    (persistOutcome : Except String String) (state : GenerationState) : GenerationState :=
  if state.num_records ≤ state.generated_data.length ∨ state.status = "generation_completed" then
    evaluate_and_save llmOutcome persistOutcome state
  else
    { state with status := "generating" }

/-- `SyntheticDataWorkflow.should_continue_generation`, the conditional-edge
decision after every evaluation node. -/
def should_continue_generation (state : GenerationState) : String :=
  if state.status = "research_failed" ∨ state.status = "generation_failed" ∨
      state.status = "evaluation_failed" then "end"
  else if state.status = "completed" then "end"
  else if state.generated_data.length < state.num_records ∧
      state.status ≠ "generation_completed" then "continue"
  else if state.num_records ≤ state.generated_data.length ∧
      state.status ≠ "completed" then "end"
  else "end"

/-- The initial state constructed by `run_workflow`. -/
def initialState (domain data_format : String) (num_records : Nat)
    (context : Option String) : GenerationState :=
  { domain := domain, data_format := data_format, num_records := num_records
    context := context, status := "pending" }

/-- The state `run_workflow`'s outer `except` returns when an exception
escapes the state-machine driver itself. -/
def workflowFailureState (domain data_format : String) (num_records : Nat)
    (context : Option String) (msg : String) : GenerationState :=
  { domain := domain, data_format := data_format, num_records := num_records
    context := context, status := "failed", error_message := some msg }

/-- The nodes of the compiled LangGraph of `_build_workflow`, plus END. -/
inductive Phase where
  | research
  | generate
  | evaluate
  | done
deriving DecidableEq, Repr

/-- One scheduling step of the compiled graph, parametrized by the
collaborator oracles of the executed node: `research → generate` and
`generate → evaluate` are unconditional edges, and from `evaluate` the
conditional edge follows `should_continue_generation`. -/
inductive WStep (batchSize : Nat) : Phase × GenerationState → Phase × GenerationState → Prop where
  | research (o : Except String String) (s : GenerationState) :
      WStep batchSize (.research, s) (.generate, researchAgent o s)
  | generate (svc : Nat → Except String (List Record)) (s : GenerationState) :
      WStep batchSize (.generate, s) (.evaluate, generatorAgent batchSize svc s)
  | evalContinue (llm : Except String LLMEvalDict) (persist : Except String String)
      (s : GenerationState) :
      should_continue_generation (evaluateNode llm persist s) = "continue" →
      WStep batchSize (.evaluate, s) (.generate, evaluateNode llm persist s)
  | evalEnd (llm : Except String LLMEvalDict) (persist : Except String String)
      (s : GenerationState) :
      should_continue_generation (evaluateNode llm persist s) = "end" →
      WStep batchSize (.evaluate, s) (.done, evaluateNode llm persist s)

/-- Configurations reachable from entering the graph at `research` with a
given initial state. -/
inductive Reachable (batchSize : Nat) (init : GenerationState) :
    Phase × GenerationState → Prop where
  | init : Reachable batchSize init (.research, init)
  | step {c c' : Phase × GenerationState} :
      Reachable batchSize init c → WStep batchSize c c' → Reachable batchSize init c'

/-- Modelled from the spec: the §4.5 transition table, read top-down as an
ordered decision table (first matching row wins).  This is the spec-side
contract that `should_continue_generation` is compared against. -/
def specTransitionTable (state : GenerationState) : String :=
  if state.status = "research_failed" ∨ state.status = "generation_failed" ∨
      state.status = "evaluation_failed" then "end"
  else if state.status = "completed" then "end"
  else if state.generated_data.length < state.num_records ∧
      state.status ≠ "generation_completed" then "continue"
  else "end"

/-! Concrete fixtures used to evaluate the model on the runs the spec and
claims describe. -/

/-- A well-formed qna record that passes the basic quality filter. -/
def sampleRecord : Record :=
  [("question", Value.vstr "What is aspirin used for"),
   ("answer", Value.vstr "Pain relief and fever reduction"),
   ("context", Value.vstr "pharmacology")]

/-- A generation service that always honours the requested batch size. -/
def svcExact : Nat → Except String (List Record) :=
  fun k => .ok ((List.range k).map fun i => [("id", Value.vint i)])

/-- A generation service that returns an empty batch on every call. -/
def svcEmpty : Nat → Except String (List Record) :=
  fun _ => .ok []

/-- A generation service returning the requested number of sample records. -/
def svcSample : Nat → Except String (List Record) :=
  fun k => .ok (List.replicate k sampleRecord)

/-- Run: research fails, yet the graph's unconditional `research → generate`
edge drives generation anyway. -/
def c2s0 : GenerationState := initialState "healthcare" "qna" 1 none

def c2s1 : GenerationState := researchAgent (.error "scraper connection refused") c2s0

def c2s2 : GenerationState := generatorAgent 15 svcSample c2s1

def c2s3 : GenerationState :=
  evaluateNode (.error "llm timeout") (.ok "responses/healthcare_qna_20260101_000000.csv") c2s2

/-- Run: the generation service returns an empty batch. -/
def c4s0 : GenerationState := initialState "finance" "qna" 1 none

def c4s1 : GenerationState := researchAgent (.ok "{}") c4s0

def c4s2 : GenerationState := generatorAgent 15 svcEmpty c4s1

def c4s3 : GenerationState :=
  evaluateNode (.error "llm timeout") (.error "disk full") c4s2

def c4s4 : GenerationState := generatorAgent 15 svcSample c4s3

def c4s5 : GenerationState :=
  evaluateNode (.error "llm timeout") (.ok "responses/finance_qna_20260101_000000.csv") c4s4

/-- Batch-size bookkeeping example of §8: 40 records at batch size 15. -/
def c5s0 : GenerationState :=
  { initialState "healthcare" "qna" 40 none with status := "research_completed" }

def c5s1 : GenerationState := generatorAgent 15 svcExact c5s0

def c5s2 : GenerationState := generatorAgent 15 svcExact c5s1

def c5s3 : GenerationState := generatorAgent 15 svcExact c5s2

/-- The record of §8 rejected by the basic quality filter. -/
def shortQuestionRecord : Record :=
  [("question", Value.vstr "Hi"), ("answer", Value.vstr "A full answer here"),
   ("context", Value.vstr "ctx")]

/-- `{"a":1,"b":2}` from the spec's duplicate-collapse example. -/
def recAB : Record := [("a", Value.vint 1), ("b", Value.vint 2)]

/-- `{"b":2,"a":1}`: the same pairs in the other insertion order. -/
def recBA : Record := [("b", Value.vint 2), ("a", Value.vint 1)]

/-- The strict key order underlying `keyLe`: strictly smaller field name. -/
def keyLt (a b : String × Value) : Prop := keyLe a b ∧ a.1 ≠ b.1

/-! Order-theoretic facts about the canonicalization order. -/

theorem lexLe_refl (l : List Char) : lexLe l l = true := by
  induction l with
  | nil => rfl
  | cons a as ih => simp [lexLe, lt_irrefl, ih]

theorem lexLe_total : ∀ x y : List Char, lexLe x y = true ∨ lexLe y x = true := by
  intro x
  induction x with
  | nil => intro y; left; rfl
  | cons a as ih =>
    intro y
    cases y with
    | nil => right; rfl
    | cons b bs =>
      rcases lt_trichotomy a b with h | h | h
      · left; simp [lexLe, h]
      · subst h; simpa [lexLe, lt_irrefl] using ih bs
      · right; simp [lexLe, h]

theorem lexLe_trans :
    ∀ x y z : List Char, lexLe x y = true → lexLe y z = true → lexLe x z = true := by
  intro x
  induction x with
  | nil => intro y z _ _; rfl
  | cons a as ih =>
    intro y z hxy hyz
    cases y with
    | nil => simp [lexLe] at hxy
    | cons b bs =>
      cases z with
      | nil => simp [lexLe] at hyz
      | cons c cs =>
        rcases lt_trichotomy a b with hab | hab | hab
        · rcases lt_trichotomy b c with hbc | hbc | hbc
          · simp [lexLe, lt_trans hab hbc]
          · subst hbc; simp [lexLe, hab]
          · simp [lexLe, hbc, asymm hbc] at hyz
        · subst hab
          rcases lt_trichotomy a c with hac | hac | hac
          · simp [lexLe, hac]
          · subst hac
            simp only [lexLe, lt_irrefl, if_false] at hxy hyz ⊢
            exact ih bs cs hxy hyz
          · simp [lexLe, hac, asymm hac] at hyz
        · simp [lexLe, hab, asymm hab] at hxy

theorem lexLe_antisymm :
    ∀ x y : List Char, lexLe x y = true → lexLe y x = true → x = y := by
  intro x
  induction x with
  | nil =>
    intro y _ hyx
    cases y with
    | nil => rfl
    | cons b bs => simp [lexLe] at hyx
  | cons a as ih =>
    intro y hxy hyx
    cases y with
    | nil => simp [lexLe] at hxy
    | cons b bs =>
      rcases lt_trichotomy a b with hab | hab | hab
      · simp [lexLe, hab, asymm hab] at hyx
      · subst hab
        simp only [lexLe, lt_irrefl, if_false] at hxy hyx
        exact congrArg (a :: ·) (ih bs hxy hyx)
      · simp [lexLe, hab, asymm hab] at hxy

instance : IsTotal (String × Value) keyLe :=
  ⟨fun a b => lexLe_total a.1.data b.1.data⟩

instance : IsTrans (String × Value) keyLe :=
  ⟨fun a b c hab hbc => lexLe_trans a.1.data b.1.data c.1.data hab hbc⟩

instance : IsAntisymm (String × Value) keyLt :=
  ⟨fun a b hab hba => by
    have hdata : a.1.data = b.1.data := lexLe_antisymm _ _ hab.1 hba.1
    have : a.1 = b.1 := by
      cases h1 : a.1 with | _ d1 => cases h2 : b.1 with | _ d2 =>
      simp_all
    exact absurd this hab.2⟩

theorem canon_perm (r : Record) : List.Perm (canon r) r := List.perm_insertionSort keyLe r

theorem canon_sorted (r : Record) : List.Sorted keyLe (canon r) :=
  List.sorted_insertionSort keyLe r

/-- A key-sorted record with no duplicate keys is strictly key-sorted. -/
theorem sorted_keyLt_of_nodup_keys {l : Record} (hs : List.Sorted keyLe l)
    (hn : (l.map Prod.fst).Nodup) : List.Sorted keyLt l := by
  have hne : List.Pairwise (fun a b : String × Value => a.1 ≠ b.1) l :=
    (List.pairwise_map).1 hn
  exact hs.and hne

/-- Records with the same field/value pairs (in any insertion order, with
unique field names as Python dicts guarantee) have the same canonical form. -/
theorem canon_eq_of_perm {r1 r2 : Record} (hn : (r1.map Prod.fst).Nodup)
    (hp : List.Perm r1 r2) : canon r1 = canon r2 := by
  have hperm : List.Perm (canon r1) (canon r2) :=
    (canon_perm r1).trans (hp.trans (canon_perm r2).symm)
  have hn1 : ((canon r1).map Prod.fst).Nodup :=
    (((canon_perm r1).map Prod.fst).nodup_iff).2 hn
  have hn2 : ((canon r2).map Prod.fst).Nodup :=
    ((hperm.map Prod.fst).nodup_iff).1 hn1
  exact List.eq_of_perm_of_sorted hperm
    (sorted_keyLt_of_nodup_keys (canon_sorted r1) hn1)
    (sorted_keyLt_of_nodup_keys (canon_sorted r2) hn2)

/-! Behaviour of the exact-duplicate-removal loop. -/

theorem removeDupsGo_sublist (seen : List Record) (l : List Record) :
    (removeDupsGo seen l).Sublist l := by
  induction l generalizing seen with
  | nil => simp [removeDupsGo]
  | cons a rs ih =>
    by_cases h : canon a ∈ seen
    · rw [removeDupsGo, if_pos h]
      exact (ih seen).cons a
    · rw [removeDupsGo, if_neg h]
      exact (ih (canon a :: seen)).cons₂ a

theorem removeDupsGo_firstOcc (seen : List Record) (l : List Record) :
    ∀ r ∈ removeDupsGo seen l,
      canon r ∉ seen ∧
      ∃ pre suf, l = pre ++ r :: suf ∧ ∀ x ∈ pre, canon x ≠ canon r := by
  induction l generalizing seen with
  | nil => intro r hr; simp [removeDupsGo] at hr
  | cons a rs ih =>
    intro r hr
    by_cases h : canon a ∈ seen
    · rw [removeDupsGo, if_pos h] at hr
      obtain ⟨hns, pre, suf, heq, hpre⟩ := ih seen r hr
      refine ⟨hns, a :: pre, suf, by rw [heq]; rfl, ?_⟩
      intro x hx
      rcases List.mem_cons.1 hx with hxa | hxp
      · subst hxa
        intro hcc
        exact hns (hcc ▸ h)
      · exact hpre x hxp
    · rw [removeDupsGo, if_neg h] at hr
      rcases List.mem_cons.1 hr with hra | hrr
      · subst hra
        exact ⟨h, [], rs, rfl, by intro x hx; simp at hx⟩
      · obtain ⟨hns, pre, suf, heq, hpre⟩ := ih (canon a :: seen) r hrr
        have hne : canon r ≠ canon a := fun hc => hns (by rw [hc]; exact List.mem_cons_self _ _)
        refine ⟨fun hc => hns (List.mem_cons_of_mem _ hc), a :: pre, suf, by rw [heq]; rfl, ?_⟩
        intro x hx
        rcases List.mem_cons.1 hx with hxa | hxp
        · subst hxa; exact fun hc => hne hc.symm
        · exact hpre x hxp

theorem removeDupsGo_pairwise (seen : List Record) (l : List Record) :
    List.Pairwise (fun a b => canon a ≠ canon b) (removeDupsGo seen l) := by
  induction l generalizing seen with
  | nil => simp [removeDupsGo]
  | cons a rs ih =>
    by_cases h : canon a ∈ seen
    · rw [removeDupsGo, if_pos h]
      exact ih seen
    · rw [removeDupsGo, if_neg h]
      refine List.Pairwise.cons ?_ (ih (canon a :: seen))
      intro b hb
      have := (removeDupsGo_firstOcc (canon a :: seen) rs b hb).1
      exact fun hc => this (by rw [← hc]; exact List.mem_cons_self _ _)

theorem removeDupsGo_represents (seen : List Record) (l : List Record) :
    ∀ r ∈ l, canon r ∉ seen →
      ∃ rr ∈ removeDupsGo seen l, canon rr = canon r := by
  induction l generalizing seen with
  | nil => intro r hr; simp at hr
  | cons a rs ih =>
    intro r hr hrs
    by_cases h : canon a ∈ seen
    · rw [removeDupsGo, if_pos h]
      rcases List.mem_cons.1 hr with hra | hrr
      · subst hra; exact absurd h hrs
      · exact ih seen r hrr hrs
    · rw [removeDupsGo, if_neg h]
      rcases List.mem_cons.1 hr with hra | hrr
      · subst hra
        exact ⟨r, List.mem_cons_self _ _, rfl⟩
      · by_cases hc : canon r = canon a
        · exact ⟨a, List.mem_cons_self _ _, hc.symm⟩
        · have hns : canon r ∉ canon a :: seen := by
            intro hm
            rcases List.mem_cons.1 hm with hm1 | hm2
            · exact hc hm1
            · exact hrs hm2
          obtain ⟨rr, hrr', hcc⟩ := ih (canon a :: seen) r hrr hns
          exact ⟨rr, List.mem_cons_of_mem _ hrr', hcc⟩

/-! Field-preservation facts about the stages. -/

theorem generate_data_batch_total_batches (bs : Nat) (svc : Nat → Except String (List Record))
    (s : GenerationState) : (generate_data_batch bs svc s).total_batches = s.total_batches := by
  unfold generate_data_batch
  split
  · rfl
  · split
    · rfl
    · split <;> rfl

theorem generate_data_batch_file_path (bs : Nat) (svc : Nat → Except String (List Record))
    (s : GenerationState) : (generate_data_batch bs svc s).file_path = s.file_path := by
  unfold generate_data_batch
  split
  · rfl
  · split
    · rfl
    · split <;> rfl

theorem generate_data_batch_status (bs : Nat) (svc : Nat → Except String (List Record))
    (s : GenerationState) :
    (generate_data_batch bs svc s).status = "generation_completed" ∨
    (generate_data_batch bs svc s).status = "generation_failed" ∨
    (generate_data_batch bs svc s).status = "generating" := by
  unfold generate_data_batch
  split
  · left; rfl
  · split
    · right; left; rfl
    · split
      · right; left; rfl
      · dsimp only
        split
        · left; rfl
        · right; right; rfl

theorem generate_data_batch_append (bs : Nat) (svc : Nat → Except String (List Record))
    (s : GenerationState) :
    ∃ t, (generate_data_batch bs svc s).generated_data = s.generated_data ++ t := by
  unfold generate_data_batch
  split
  · exact ⟨[], by simp⟩
  · split
    · exact ⟨[], by simp⟩
    · split
      · exact ⟨[], by simp⟩
      · exact ⟨_, rfl⟩

theorem generatorAgent_total_batches (bs : Nat) (svc : Nat → Except String (List Record))
    (s : GenerationState) :
    (generatorAgent bs svc s).total_batches =
      if s.total_batches = 0 then calculate_batches s.num_records bs else s.total_batches := by
  unfold generatorAgent
  by_cases h : s.total_batches = 0
  · rw [if_pos h, if_pos h, generate_data_batch_total_batches]
  · rw [if_neg h, if_neg h, generate_data_batch_total_batches]

theorem generatorAgent_file_path (bs : Nat) (svc : Nat → Except String (List Record))
    (s : GenerationState) : (generatorAgent bs svc s).file_path = s.file_path := by
  unfold generatorAgent
  by_cases h : s.total_batches = 0
  · rw [if_pos h, generate_data_batch_file_path]
  · rw [if_neg h, generate_data_batch_file_path]

theorem generatorAgent_status (bs : Nat) (svc : Nat → Except String (List Record))
    (s : GenerationState) :
    (generatorAgent bs svc s).status = "generation_completed" ∨
    (generatorAgent bs svc s).status = "generation_failed" ∨
    (generatorAgent bs svc s).status = "generating" := by
  unfold generatorAgent
  by_cases h : s.total_batches = 0
  · rw [if_pos h]; exact generate_data_batch_status bs svc _
  · rw [if_neg h]; exact generate_data_batch_status bs svc _

theorem researchAgent_file_path (o : Except String String) (s : GenerationState) :
    (researchAgent o s).file_path = s.file_path := by
  cases o <;> rfl

theorem researchAgent_status (o : Except String String) (s : GenerationState) :
    (researchAgent o s).status = "research_completed" ∨
    (researchAgent o s).status = "research_failed" := by
  cases o
  · right; rfl
  · left; rfl

/-- Case analysis of one full Evaluation pass: either a failure that leaves
`generated_data`, `file_path`, `current_batch` and `total_batches` exactly
as on entry, or the success step that replaces `generated_data`, sets
`file_path` and sets `status="completed"` all at once. -/
theorem evaluate_and_save_cases (llm : Except String LLMEvalDict)
    (persist : Except String String) (s : GenerationState) :
    ((evaluate_and_save llm persist s).status = "evaluation_failed" ∧
     (evaluate_and_save llm persist s).generated_data = s.generated_data ∧
     (evaluate_and_save llm persist s).file_path = s.file_path ∧
     (evaluate_and_save llm persist s).current_batch = s.current_batch ∧
     (evaluate_and_save llm persist s).total_batches = s.total_batches) ∨
    ((evaluate_and_save llm persist s).status = "completed" ∧
     (evaluate_and_save llm persist s).generated_data =
       (evaluate_with_llm llm
         (basic_quality_check (remove_exact_duplicates s.generated_data) s.data_format)
         s.data_format).valid_records ∧
     ∃ fp, persist = .ok fp ∧ (evaluate_and_save llm persist s).file_path = some fp) := by
  unfold evaluate_and_save
  cases persist with
  | error e =>
    dsimp only
    split
    · exact Or.inl ⟨rfl, rfl, rfl, rfl, rfl⟩
    · exact Or.inl ⟨rfl, rfl, rfl, rfl, rfl⟩
  | ok fp =>
    dsimp only
    split
    · exact Or.inl ⟨rfl, rfl, rfl, rfl, rfl⟩
    · exact Or.inr ⟨rfl, rfl, fp, rfl, rfl⟩

/-- The `file_path`/`status` coupling is (re-)established by every
evaluation node, full or pass-through, from a state with no file yet. -/
theorem evaluateNode_fileInv (llm : Except String LLMEvalDict)
    (persist : Except String String) (s : GenerationState) (h : s.file_path = none) :
    (evaluateNode llm persist s).file_path ≠ none ↔
      (evaluateNode llm persist s).status = "completed" := by
  unfold evaluateNode
  split
  · rcases evaluate_and_save_cases llm persist s with ⟨hs, _, hf, _, _⟩ | ⟨hs, _, fp, _, hf⟩
    · rw [hs, hf, h]
      simp
    · rw [hs, hf]
      simp
  · rw [h]
    simp

theorem should_continue_eq_end_of_completed (s : GenerationState)
    (h : s.status = "completed") : should_continue_generation s = "end" := by
  unfold should_continue_generation
  rw [h]
  simp

theorem status_ne_completed_of_continue (s : GenerationState)
    (h : should_continue_generation s = "continue") : s.status ≠ "completed" := by
  intro hc
  rw [should_continue_eq_end_of_completed s hc] at h
  exact absurd h (by decide)

/-! Ceiling-division arithmetic. -/

theorem calculate_batches_bounds (n bs : Nat) (hbs : 0 < bs) :
    n ≤ calculate_batches n bs * bs ∧ calculate_batches n bs * bs < n + bs := by
  unfold calculate_batches
  have h1 := Nat.div_add_mod (n + bs - 1) bs
  have h2 : (n + bs - 1) % bs < bs := Nat.mod_lt _ hbs
  rw [Nat.mul_comm]
  omega

/-- The executable `calculate_batches` is the exact rational ceiling
`math.ceil(total_records / batch_size)` of the source. -/
theorem calculate_batches_eq_ceil (n bs : Nat) (hbs : 0 < bs) :
    (calculate_batches n bs : ℤ) = ⌈(n : ℚ) / (bs : ℚ)⌉ := by
  obtain ⟨hA, hB⟩ := calculate_batches_bounds n bs hbs
  have hbsQ : (0 : ℚ) < bs := by exact_mod_cast hbs
  symm
  rw [Int.ceil_eq_iff]
  constructor
  · rw [lt_div_iff₀ hbsQ]
    have hB' : (calculate_batches n bs * bs : ℚ) < n + bs := by exact_mod_cast hB
    push_cast
    nlinarith [hB']
  · rw [div_le_iff₀ hbsQ]
    push_cast
    exact_mod_cast hA

/-! The file-path/status invariant of reachable configurations. -/

/-- In every reachable configuration, `file_path` is set iff the run is
`completed`; moreover `completed` only ever appears in the END phase. -/
theorem reachable_file_path_inv (bs : Nat) (d f : String) (n : Nat) (ctx : Option String)
    (cfg : Phase × GenerationState)
    (h : Reachable bs (initialState d f n ctx) cfg) :
    (cfg.2.file_path ≠ none ↔ cfg.2.status = "completed") ∧
    (cfg.1 ≠ Phase.done → cfg.2.status ≠ "completed") := by
  induction h with
  | init =>
    constructor
    · simp [initialState]
    · intro _; simp [initialState]
  | step hr hw ih =>
    cases hw with
    | research o s =>
      have hs_ne : s.status ≠ "completed" := ih.2 (by intro hc; cases hc)
      have hs_none : s.file_path = none := by
        by_contra hn
        exact hs_ne (ih.1.1 hn)
      constructor
      · rw [researchAgent_file_path, hs_none]
        rcases researchAgent_status o s with h1 | h1 <;> rw [h1] <;> simp
      · intro _
        rcases researchAgent_status o s with h1 | h1 <;> rw [h1] <;> decide
    | generate svc s =>
      have hs_ne : s.status ≠ "completed" := ih.2 (by intro hc; cases hc)
      have hs_none : s.file_path = none := by
        by_contra hn
        exact hs_ne (ih.1.1 hn)
      constructor
      · rw [generatorAgent_file_path, hs_none]
        rcases generatorAgent_status bs svc s with h1 | h1 | h1 <;> rw [h1] <;> simp
      · intro _
        rcases generatorAgent_status bs svc s with h1 | h1 | h1 <;> rw [h1] <;> decide
    | evalContinue llm persist s hdec =>
      have hs_ne : s.status ≠ "completed" := ih.2 (by intro hc; cases hc)
      have hs_none : s.file_path = none := by
        by_contra hn
        exact hs_ne (ih.1.1 hn)
      exact ⟨evaluateNode_fileInv llm persist s hs_none,
        fun _ => status_ne_completed_of_continue _ hdec⟩
    | evalEnd llm persist s hdec =>
      have hs_ne : s.status ≠ "completed" := ih.2 (by intro hc; cases hc)
      have hs_none : s.file_path = none := by
        by_contra hn
        exact hs_ne (ih.1.1 hn)
      exact ⟨evaluateNode_fileInv llm persist s hs_none,
        fun hd => absurd rfl hd⟩

/-! The claims. -/

/-- C1: the orchestrator's continuation decision taken after every
Evaluation-stage invocation implements exactly the spec's §4.5 transition
table: `end` (a failed outcome) for the three failed statuses, `end` (the
success outcome) for `completed`, `continue` (loop back to Batch
Generation) when `len(generated_data) < num_records` and the status is not
`generation_completed`, and `end` in every other case. -/
theorem claim_C1_continuation_matches_spec_table (s : GenerationState) :
    should_continue_generation s = specTransitionTable s := by
  unfold should_continue_generation specTransitionTable
  split_ifs <;> rfl

/-- C1 witness: the decision agrees with the spec table on a concrete state. -/
theorem claim_C1_witness :
    should_continue_generation (initialState "law" "qna" 3 none) =
      specTransitionTable (initialState "law" "qna" 3 none) :=
  claim_C1_continuation_matches_spec_table (initialState "law" "qna" 3 none)

/-- C2 (code bug): a concrete run in which the Research stage fails —
`status=research_failed` is set — and yet the compiled graph's unconditional
`research → generate` edge schedules a Batch Generation call, the generator
produces a record, and the run terminates `completed` with a persisted file
path instead of a failed outcome. -/
theorem claim_C2_research_failure_not_terminal :
    c2s1.status = "research_failed" ∧
    c2s1.error_message = some "Research failed: scraper connection refused" ∧
    WStep 15 (Phase.research, c2s0) (Phase.generate, c2s1) ∧
    c2s2.generated_data.length = 1 ∧
    Reachable 15 c2s0 (Phase.done, c2s3) ∧
    c2s3.status = "completed" ∧
    c2s3.file_path ≠ none := by
  refine ⟨by decide, by decide, ?_, by decide, ?_, by decide, by decide⟩
  · exact WStep.research (Except.error "scraper connection refused") c2s0
  · exact Reachable.step
      (Reachable.step
        (Reachable.step Reachable.init
          (WStep.research (Except.error "scraper connection refused") c2s0))
        (WStep.generate svcSample c2s1))
      (WStep.evalEnd (Except.error "llm timeout")
        (Except.ok "responses/healthcare_qna_20260101_000000.csv") c2s2 (by decide))

/-- C3: when the evaluation collaborator raises, the Evaluation stage falls
back to re-running exact-duplicate removal and the basic quality filter on
its input, reporting exactly the fixed quality-issue message, the number of
records removed as duplicates, and `passed_validation` true iff the
filtered count is positive. -/
theorem claim_C3_llm_failure_fallback (err : String) (data : List Record) (fmt : String) :
    (evaluate_with_llm (.error err) data fmt).quality_issues =
      ["Basic validation only - LLM evaluation failed"] ∧
    (evaluate_with_llm (.error err) data fmt).duplicate_count =
      (data.length : Int) - (remove_exact_duplicates data).length ∧
    (remove_exact_duplicates data).Sublist data ∧
    (evaluate_with_llm (.error err) data fmt).valid_records =
      basic_quality_check (remove_exact_duplicates data) fmt ∧
    ((evaluate_with_llm (.error err) data fmt).passed_validation = true ↔
      0 < (basic_quality_check (remove_exact_duplicates data) fmt).length) := by
  refine ⟨rfl, rfl, removeDupsGo_sublist [] data, rfl, ?_⟩
  exact decide_eq_true_iff

/-- C3 witness: the fallback report on a concrete record list. -/
theorem claim_C3_witness :
    (evaluate_with_llm (.error "boom") [sampleRecord, sampleRecord] "qna").quality_issues =
      ["Basic validation only - LLM evaluation failed"] :=
  (claim_C3_llm_failure_fallback "boom" [sampleRecord, sampleRecord] "qna").1

/-- C4 (code bug): a concrete run in which the generation service returns an
empty batch: the stage does set `status=generation_failed` with its
explanatory message, but the pass-through Evaluation node then overwrites
the status with `generating`, the decision point answers `continue` instead
of terminating, and the continued run even completes and persists a file. -/
theorem claim_C4_empty_batch_not_terminal :
    c4s2.status = "generation_failed" ∧
    c4s2.error_message = some "Failed to generate data batch" ∧
    c4s3.status = "generating" ∧
    should_continue_generation c4s3 = "continue" ∧
    WStep 15 (Phase.evaluate, c4s2) (Phase.generate, c4s3) ∧
    Reachable 15 c4s0 (Phase.done, c4s5) ∧
    c4s5.status = "completed" ∧
    c4s5.file_path ≠ none := by
  refine ⟨by decide, by decide, by decide, by decide, ?_, ?_, by decide, by decide⟩
  · exact WStep.evalContinue (Except.error "llm timeout") (Except.error "disk full") c4s2
      (by decide)
  · exact Reachable.step
      (Reachable.step
        (Reachable.step
          (Reachable.step
            (Reachable.step Reachable.init (WStep.research (Except.ok "{}") c4s0))
            (WStep.generate svcEmpty c4s1))
          (WStep.evalContinue (Except.error "llm timeout") (Except.error "disk full") c4s2
            (by decide)))
        (WStep.generate svcSample c4s3))
      (WStep.evalEnd (Except.error "llm timeout")
        (Except.ok "responses/finance_qna_20260101_000000.csv") c4s4 (by decide))

/-- C5: `total_batches` is the exact ceiling `ceil(num_records/batch_size)`
(and hence positive), it is computed on the first Generation-stage entry
(`total_batches == 0`) and never recomputed afterwards, each batch's
requested size `min(batch_size, remaining)` never exceeds the configured
batch size, and the §8 example `num_records=40, batch_size=15` yields
`total_batches=3` with per-batch sizes `[15, 15, 10]`. -/
theorem claim_C5_batch_arithmetic (n bs : Nat) (hn : 0 < n) (hbs : 0 < bs) :
    (calculate_batches n bs : ℤ) = ⌈(n : ℚ) / (bs : ℚ)⌉ ∧
    0 < calculate_batches n bs ∧
    (∀ (svc : Nat → Except String (List Record)) (s : GenerationState),
      (generatorAgent bs svc s).total_batches =
        if s.total_batches = 0 then calculate_batches s.num_records bs else s.total_batches) ∧
    (∀ s : GenerationState, requestedBatchSize bs s ≤ bs) ∧
    (c5s1.total_batches = 3 ∧
      [requestedBatchSize 15 c5s0, requestedBatchSize 15 c5s1, requestedBatchSize 15 c5s2] =
        [15, 15, 10] ∧
      c5s3.generated_data.length = 40 ∧ c5s3.status = "generation_completed") := by
  refine ⟨calculate_batches_eq_ceil n bs hbs, ?_, ?_, ?_, by decide⟩
  · exact Nat.div_pos (by omega) hbs
  · exact fun svc s => generatorAgent_total_batches bs svc s
  · exact fun s => Nat.min_le_left _ _

/-- C5 witness: the batch bookkeeping at the concrete §8 example. -/
theorem claim_C5_witness :
    c5s1.total_batches = 3 ∧
    [requestedBatchSize 15 c5s0, requestedBatchSize 15 c5s1, requestedBatchSize 15 c5s2] =
      [15, 15, 10] :=
  ⟨(claim_C5_batch_arithmetic 40 15 (by decide) (by decide)).2.2.2.2.1,
   (claim_C5_batch_arithmetic 40 15 (by decide) (by decide)).2.2.2.2.2.1⟩

/-- C6: a Batch Generation stage call only ever appends to
`generated_data` (the input is a prefix of the output, so its length is
non-decreasing), and when no records remain on entry the stage returns the
state unchanged except for `status=generation_completed`. -/
theorem claim_C6_generation_append_only (bs : Nat) (svc : Nat → Except String (List Record))
    (s : GenerationState) :
    (∃ t, (generate_data_batch bs svc s).generated_data = s.generated_data ++ t) ∧
    s.generated_data.length ≤ (generate_data_batch bs svc s).generated_data.length ∧
    (recordsRemaining s ≤ 0 →
      generate_data_batch bs svc s = { s with status := "generation_completed" }) := by
  obtain ⟨t, ht⟩ := generate_data_batch_append bs svc s
  refine ⟨⟨t, ht⟩, by rw [ht]; simp, ?_⟩
  intro h
  unfold generate_data_batch
  rw [if_pos h]

/-- C6 witness: with the quota already met, the stage is a status-only
no-op. -/
theorem claim_C6_witness :
    generate_data_batch 15 svcExact c5s3 = { c5s3 with status := "generation_completed" } :=
  (claim_C6_generation_append_only 15 svcExact c5s3).2.2 (by decide)

/-- C7: exact-duplicate removal returns a subsequence of its input keeping
only canonical-form first occurrences: every retained record is the first
in the input with its canonical form, every input record is represented by
a retained record of the same canonical form, no two retained records share
a canonical form, and records that are field/value permutations of each
other (with unique field names, as Python dicts guarantee) share one
canonical form. -/
theorem claim_C7_exact_duplicate_removal (data : List Record) :
    (remove_exact_duplicates data).Sublist data ∧
    (∀ r ∈ remove_exact_duplicates data,
      ∃ pre suf, data = pre ++ r :: suf ∧ ∀ x ∈ pre, canon x ≠ canon r) ∧
    (∀ r ∈ data, ∃ rr ∈ remove_exact_duplicates data, canon rr = canon r) ∧
    List.Pairwise (fun a b => canon a ≠ canon b) (remove_exact_duplicates data) ∧
    (∀ r1 r2 : Record, (r1.map Prod.fst).Nodup → List.Perm r1 r2 → canon r1 = canon r2) := by
  refine ⟨removeDupsGo_sublist [] data, ?_, ?_, removeDupsGo_pairwise [] data, ?_⟩
  · exact fun r hr => (removeDupsGo_firstOcc [] data r hr).2
  · exact fun r hr => removeDupsGo_represents [] data r hr (by simp)
  · exact fun r1 r2 hn hp => canon_eq_of_perm hn hp

/-- C7 witness: the spec's example — `{"a":1,"b":2}` and `{"b":2,"a":1}`
have one canonical form and collapse to the first-occurring record. -/
theorem claim_C7_witness :
    canon recAB = canon recBA ∧
    remove_exact_duplicates [recAB, recBA] = [recAB] :=
  ⟨(claim_C7_exact_duplicate_removal []).2.2.2.2 recAB recBA (by decide) (by decide),
   by decide⟩

/-- A field value trips the basic quality filter iff it is a string whose
stripped length is below 3 or whose lower-casing is a placeholder token, or
an empty mapping. -/
theorem valueViolates_eq_true_iff (v : Value) :
    valueViolates v = true ↔
      (∃ s, v = Value.vstr s ∧
        ((pyStrip s).length < 3 ∨ pyLower s ∈ placeholderTokens)) ∨
      (∃ d, v = Value.vdict d ∧ d = []) := by
  cases v with
  | vstr s =>
    simp [valueViolates, List.elem_iff]
  | vint n => simp [valueViolates]
  | vdict d => simp [valueViolates, List.isEmpty_iff]

/-- C8: the basic quality filter keeps a record iff no field violates the
rule set (string fields must strip to length ≥ 3 and must not lower-case to
a placeholder token; mapping fields must be non-empty), and it rejects the
§8 example record whose question `"Hi"` strips to length 2. -/
theorem claim_C8_basic_quality_filter (data : List Record) (fmt : String) :
    (∀ r, r ∈ basic_quality_check data fmt ↔
      (r ∈ data ∧ ¬ ∃ kv ∈ r,
        (∃ v, kv.2 = Value.vstr v ∧
          ((pyStrip v).length < 3 ∨ pyLower v ∈ placeholderTokens)) ∨
        (∃ d, kv.2 = Value.vdict d ∧ d = []))) ∧
    basic_quality_check [shortQuestionRecord] "qna" = [] := by
  refine ⟨?_, by decide⟩
  intro r
  rw [basic_quality_check, List.mem_filter, and_congr_right_iff]
  intro _
  rw [recordIsValid, List.all_eq_true]
  constructor
  · rintro h ⟨kv, hkv, hviol⟩
    have := h kv hkv
    rw [Bool.not_eq_true', ← Bool.not_eq_true, valueViolates_eq_true_iff] at this
    exact this hviol
  · intro h kv hkv
    rw [Bool.not_eq_true', ← Bool.not_eq_true, valueViolates_eq_true_iff]
    exact fun hviol => h ⟨kv, hkv, hviol⟩

/-- C8 witness: the §8 example record is rejected. -/
theorem claim_C8_witness :
    basic_quality_check [shortQuestionRecord] "qna" = [] :=
  (claim_C8_basic_quality_filter [] "qna").2

/-- C9: in every configuration reachable from the initial pending state
through the compiled graph, `file_path` is non-null iff
`status == completed`; a full Evaluation pass either fails leaving
`file_path` untouched or sets `file_path` and `status="completed"` in the
same step; and the orchestrator's outer catch-all produces a `failed` state
with no file path. -/
theorem claim_C9_file_path_iff_completed (bs : Nat) (d f : String) (n : Nat)
    (ctx : Option String) (p : Phase) (s : GenerationState)
    (h : Reachable bs (initialState d f n ctx) (p, s)) :
    (s.file_path ≠ none ↔ s.status = "completed") ∧
    (∀ (llm : Except String LLMEvalDict) (persist : Except String String)
        (t : GenerationState),
      ((evaluate_and_save llm persist t).status = "evaluation_failed" ∧
        (evaluate_and_save llm persist t).file_path = t.file_path) ∨
      ((evaluate_and_save llm persist t).status = "completed" ∧
        ∃ fp, (evaluate_and_save llm persist t).file_path = some fp)) ∧
    (∀ msg, (workflowFailureState d f n ctx msg).file_path = none ∧
      (workflowFailureState d f n ctx msg).status = "failed") := by
  refine ⟨(reachable_file_path_inv bs d f n ctx (p, s) h).1, ?_, fun msg => ⟨rfl, rfl⟩⟩
  intro llm persist t
  rcases evaluate_and_save_cases llm persist t with ⟨h1, _, h2, _, _⟩ | ⟨h1, _, fp, _, h2⟩
  · exact Or.inl ⟨h1, h2⟩
  · exact Or.inr ⟨h1, fp, h2⟩

/-- C9 witness: the invariant instantiated at the initial configuration. -/
theorem claim_C9_witness :
    (initialState "healthcare" "qna" 5 none).file_path ≠ none ↔
      (initialState "healthcare" "qna" 5 none).status = "completed" :=
  (claim_C9_file_path_iff_completed 15 "healthcare" "qna" 5 none Phase.research
    (initialState "healthcare" "qna" 5 none) Reachable.init).1

/-- C10: the full Evaluation pass is failure-atomic: whenever it returns
`status=evaluation_failed` — empty valid-record set or persistence error —
`generated_data` and `file_path` are exactly the entry values; only the
success step that also sets `file_path` and `status=completed` replaces
`generated_data` with the filtered set. -/
theorem claim_C10_evaluation_failure_atomic (llm : Except String LLMEvalDict)
    (persist : Except String String) (s : GenerationState) :
    ((evaluate_and_save llm persist s).status = "evaluation_failed" →
      (evaluate_and_save llm persist s).generated_data = s.generated_data ∧
      (evaluate_and_save llm persist s).file_path = s.file_path) ∧
    ((evaluate_and_save llm persist s).status = "completed" →
      (evaluate_and_save llm persist s).generated_data =
        (evaluate_with_llm llm
          (basic_quality_check (remove_exact_duplicates s.generated_data) s.data_format)
          s.data_format).valid_records ∧
      ∃ fp, (evaluate_and_save llm persist s).file_path = some fp) := by
  rcases evaluate_and_save_cases llm persist s with ⟨h1, h2, h3, _, _⟩ | ⟨h1, h2, fp, _, h3⟩
  · refine ⟨fun _ => ⟨h2, h3⟩, fun hc => ?_⟩
    rw [h1] at hc
    exact absurd hc (by decide)
  · refine ⟨fun hc => ?_, fun _ => ⟨h2, fp, h3⟩⟩
    rw [h1] at hc
    exact absurd hc (by decide)

/-- C10 witness: a concrete persistence failure leaves the records and the
(absent) file path untouched. -/
theorem claim_C10_witness :
    (evaluate_and_save (.error "llm down") (.error "disk full") c2s2).generated_data =
      c2s2.generated_data ∧
    (evaluate_and_save (.error "llm down") (.error "disk full") c2s2).file_path =
      c2s2.file_path :=
  (claim_C10_evaluation_failure_atomic (.error "llm down") (.error "disk full") c2s2).1
    (by decide)

end Mimesis
